import Mathlib

/-!
Document-processor service: request handlers and server lifecycle.

A shallow embedding of `internal/api/handlers.go` and `cmd/server/main.go`.

* Go values keep their Go names (`ParseRequest.FileURL`, `respondError`, ...).
* `http.ResponseWriter` is embedded as the writer of a `net/http` server
  (Go 1.19 or later): the header map with canonical keys, the check of the status
  code, informational 1xx responses, and statuses that carry no body.
* Calls into libraries whose result the handlers only pass along
  (`json.Decoder.Decode`, `time.Time.Format`, `chi.URLParam`,
  `http.Server.Shutdown`) are inputs of the embedding.
* `time.Now()` is an input: the instant the clock shows when the handler reads it.
* The zerolog logger is embedded with its global level: the events recorded
  are the ones that pass the level filter.
-/

namespace DocumentProcessor

/-! ## Go base values -/

/-- Instants and durations, in nanoseconds (instants since the Unix epoch). -/
abbrev Time := Int

/-- Go `time.Second`. -/
def Second : Int := 1000000000

/-- Go `time.Hour`. -/
def Hour : Int := 3600 * Second

/-- Go `http.StatusOK`. -/
def StatusOK : Int := 200

/-- Go `http.StatusBadRequest`. -/
def StatusBadRequest : Int := 400

/-- Values stored in a `map[string]interface{}` or in a field of a JSON object. -/
inductive Any where
  | str (s : String)
  | int (n : Int)
  | bool (b : Bool)
  deriving DecidableEq, Repr

/-! ## Logging (zerolog) -/

/-- Go `zerolog.Level`, an `int8`: here an integer. -/
abbrev Level := Int

/-- Go `zerolog.TraceLevel`. -/
def Level.trace : Level := -1

/-- Go `zerolog.DebugLevel`. -/
def Level.debug : Level := 0

/-- Go `zerolog.InfoLevel`. -/
def Level.info : Level := 1

/-- Go `zerolog.WarnLevel`. -/
def Level.warn : Level := 2

/-- Go `zerolog.ErrorLevel`. -/
def Level.error : Level := 3

/-- Go `zerolog.FatalLevel`. -/
def Level.fatal : Level := 4

/-- Go `zerolog.PanicLevel`. -/
def Level.panic : Level := 5

/-- Go `zerolog.NoLevel`. -/
def Level.noLevel : Level := 6

/-- Go `zerolog.Disabled`. -/
def Level.disabled : Level := 7

/-- One event of the logger: `log.<Level>().Str(k, v)... .Msg(msg)`. -/
structure LogEvent where
  level : Level
  fields : List (String × String)
  msg : String
  deriving DecidableEq, Repr

/-- Go `Logger.should` of the global logger, whose own level is trace and which
has no sampler: an event below that level or below the global level is dropped. -/
def Logger.should (globalLevel lvl : Level) : Bool :=
  if lvl < Level.trace ∨ lvl < globalLevel then false else true

/-! ## Data model (`handlers.go`, lines 12-51) -/

/-- Go `HealthResponse`. -/
structure HealthResponse where
  Status : String
  Timestamp : Time
  Service : String
  Version : String
  deriving DecidableEq, Repr

/-- Go `ParseRequest`; the zero value has both fields empty. -/
structure ParseRequest where
  FileURL : String := ""
  Format : String := ""
  deriving DecidableEq, Repr

/-- Go `ParseResponse`; `Metadata` is the map literal, in source order. -/
structure ParseResponse where
  Text : String
  Pages : Int
  Metadata : List (String × Any)
  deriving DecidableEq, Repr

/-- Go `MetadataResponse`; `Extra` is `[]` for the nil map. -/
structure MetadataResponse where
  ID : String
  Title : String
  Author : String
  Format : String
  Pages : Int
  Created : String
  Modified : String
  Size : Int
  Extra : List (String × Any) := []
  deriving DecidableEq, Repr

/-- Go `ErrorResponse`; a field left out of the struct literal is the empty string. -/
structure ErrorResponse where
  Error : String
  Code : String := ""
  ReqID : String := ""
  deriving DecidableEq, Repr

/-- JSON object written for an `ErrorResponse`, following its struct tags:
`error` always, `code` and `request_id` with `omitempty`. -/
def ErrorResponse.toJSON (e : ErrorResponse) : List (String × Any) :=
  [("error", Any.str e.Error)]
    ++ (if e.Code = "" then [] else [("code", Any.str e.Code)])
    ++ (if e.ReqID = "" then [] else [("request_id", Any.str e.ReqID)])

/-! ## The response writer -/

/-- A value handed to `json.NewEncoder(w).Encode`. -/
inductive Payload where
  | health (v : HealthResponse)
  | parse (v : ParseResponse)
  | metadata (v : MetadataResponse)
  | error (v : ErrorResponse)
  deriving DecidableEq, Repr

/-- State of the `http.ResponseWriter` of a `net/http` server while a handler
runs: the header map, the informational 1xx status lines already sent, the
status code once the header is written, the values the writer accepted into
the body, and whether a call on the writer has panicked. A panic unwinds the
handler, so the calls that follow it in the source do nothing. -/
structure ResponseWriter where
  header : List (String × String)
  informational : List Int
  status : Option Int
  body : List Payload
  panicked : Bool
  deriving DecidableEq, Repr

/-- The writer a handler receives: nothing written yet, `hdr` already in the header map. -/
def ResponseWriter.new (hdr : List (String × String)) : ResponseWriter :=
  { header := hdr, informational := [], status := none, body := [], panicked := false }

/-- Go `textproto.validHeaderFieldByte`: the characters of an HTTP token. -/
def validHeaderFieldByte (c : Char) : Bool :=
  c.isAlphanum || "!#$%&*+-.^_|~".data.contains c || c = Char.ofNat 39 || c = Char.ofNat 96

/-- The loop of Go `textproto.canonicalMIMEHeaderKey`: upper case at the start
and after a hyphen, lower case elsewhere. -/
def canonicalMIMEHeaderKey : Bool → List Char → List Char
  | _, [] => []
  | upper, c :: cs =>
    let d := if upper && c.isLower then c.toUpper
             else if !upper && c.isUpper then c.toLower
             else c
    d :: canonicalMIMEHeaderKey (d = '-') cs

/-- Go `textproto.CanonicalMIMEHeaderKey`: a key with a character outside the
HTTP token characters is returned unchanged. -/
def CanonicalMIMEHeaderKey (s : String) : String :=
  if s.data.all validHeaderFieldByte then String.mk (canonicalMIMEHeaderKey true s.data) else s

/-- Go `w.Header().Set(key, value)`: replaces whatever the canonical key held. -/
def ResponseWriter.SetHeader (w : ResponseWriter) (key value : String) : ResponseWriter :=
  if w.panicked then w
  else { w with header := (CanonicalMIMEHeaderKey key, value) ::
                  w.header.filter (fun kv => kv.1 ≠ CanonicalMIMEHeaderKey key) }

/-- Go `w.Header().Get(key)`: the value under the canonical key, or `""`. -/
def ResponseWriter.GetHeader (w : ResponseWriter) (key : String) : String :=
  match w.header.find? (fun kv => kv.1 = CanonicalMIMEHeaderKey key) with
  | some kv => kv.2
  | none => ""

/-- Go `w.WriteHeader(code)` on a server: a call after the header is written
does nothing; a code outside 100..999 panics; a 1xx code other than 101 sends
an informational response and leaves the header unwritten; any other code
becomes the status. -/
def ResponseWriter.WriteHeader (w : ResponseWriter) (code : Int) : ResponseWriter :=
  if w.panicked then w
  else
    match w.status with
    | some _ => w
    | none =>
      if code < 100 ∨ code > 999 then { w with panicked := true }
      else if 100 ≤ code ∧ code ≤ 199 ∧ code ≠ 101 then
        { w with informational := w.informational ++ [code] }
      else { w with status := some code }

/-- Go `http.bodyAllowedForStatus`: no body with 1xx, 204 and 304. -/
def bodyAllowedForStatus (status : Int) : Bool :=
  if 100 ≤ status ∧ status ≤ 199 then false
  else if status = 204 then false
  else if status = 304 then false
  else true

/-- Go `json.NewEncoder(w).Encode(v)`: one `Write` of the encoded value. A write
before any header implies status 200; the value reaches the body unless the
status allows none. -/
def ResponseWriter.Encode (w : ResponseWriter) (v : Payload) : ResponseWriter :=
  if w.panicked then w
  else
    let w := w.WriteHeader StatusOK
    match w.status with
    | some st => if bodyAllowedForStatus st then { w with body := w.body ++ [v] } else w
    | none => w

/-! ## Requests, environment, process state -/

/-- The parts of `*http.Request` a handler can look at. `URLParam key` is the
result of `chi.URLParam(r, key)` (`""` when the route has no such parameter). -/
structure Request where
  Method : String
  Header : List (String × String)
  Body : String
  URLParam : String → String

/-- Library functions the handlers call and whose results they pass along. -/
structure Env where
  /-- Result of `json.NewDecoder(r.Body).Decode(&req)` on a zero `ParseRequest`:
  the error, or the request as filled in. -/
  decode : String → Except String ParseRequest
  /-- Result of `t.Format(time.RFC3339)`. -/
  formatRFC3339 : Time → String

/-- Modelled from the spec: the type of the metrics counter `DocumentsProcessed`,
whose declaration lies outside the given sources; the spec describes it as a
process-wide monotonically increasing counter of documents processed. -/
abbrev Counter := Nat

/-- Modelled from the spec: `Inc` on the metrics counter, one more document processed. -/
def Counter.Inc (c : Counter) : Counter := c + 1

/-- Process-wide state the handlers touch: the package variable
`DocumentsProcessed`, the global log level, and the events the global logger
wrote. -/
structure State where
  DocumentsProcessed : Counter
  globalLevel : Level
  log : List LogEvent
  deriving DecidableEq, Repr

/-- Go `log.<Level>()... .Msg(msg)` in a handler: the event is written when its
level is enabled. -/
def State.logEvent (s : State) (e : LogEvent) : State :=
  if Logger.should s.globalLevel e.level then { s with log := s.log ++ [e] } else s

/-- Go `DocumentsProcessed.Inc()`. -/
def State.Inc (s : State) : State :=
  { s with DocumentsProcessed := Counter.Inc s.DocumentsProcessed }

/-! ## Handlers (`handlers.go`, lines 53-151) -/

/-- Go `respondError` (lines 145-151). -/
def respondError (w : ResponseWriter) (message : String) (status : Int) : ResponseWriter :=
  let w := w.SetHeader "Content-Type" "application/json"
  let w := w.WriteHeader status
  w.Encode (Payload.error { Error := message })

/-- Go `HealthHandler` (lines 54-65); `now` is what `time.Now()` returns. -/
def HealthHandler (now : Time) (w : ResponseWriter) (_r : Request) : ResponseWriter :=
  let response : HealthResponse :=
    { Status := "healthy", Timestamp := now, Service := "document-processor", Version := "1.0.0" }
  let w := w.SetHeader "Content-Type" "application/json"
  let w := w.WriteHeader StatusOK
  w.Encode (Payload.health response)

/-- Go `ParseDocumentHandler` (lines 68-112); `now` is what `time.Now()` returns. -/
def ParseDocumentHandler (env : Env) (now : Time) (w : ResponseWriter) (r : Request)
    (s : State) : ResponseWriter × State :=
  match env.decode r.Body with
  | Except.error err =>
    let s := s.logEvent { level := Level.error, fields := [("error", err)],
                          msg := "Failed to decode request" }
    (respondError w "Invalid request body" StatusBadRequest, s)
  | Except.ok req =>
    if req.FileURL = "" then
      (respondError w "file_url is required" StatusBadRequest, s)
    else
      let req : ParseRequest := if req.Format = "" then { req with Format := "pdf" } else req
      let s := s.logEvent { level := Level.info,
                            fields := [("file_url", req.FileURL), ("format", req.Format)],
                            msg := "Processing document parse request" }
      let response : ParseResponse :=
        { Text := "Sample extracted text content from the document...",
          Pages := 10,
          Metadata := [("title", Any.str "Sample Document"),
                       ("author", Any.str "Unknown"),
                       ("created", Any.str (env.formatRFC3339 now)),
                       ("format", Any.str req.Format)] }
      let s := s.Inc
      let w := w.SetHeader "Content-Type" "application/json"
      let w := w.WriteHeader StatusOK
      (w.Encode (Payload.parse response), s)

/-- Go `GetMetadataHandler` (lines 115-142); `now` is what `time.Now()` returns. -/
def GetMetadataHandler (env : Env) (now : Time) (w : ResponseWriter) (r : Request)
    (s : State) : ResponseWriter × State :=
  let docID := r.URLParam "id"
  if docID = "" then
    (respondError w "document id is required" StatusBadRequest, s)
  else
    let s := s.logEvent { level := Level.info, fields := [("document_id", docID)],
                          msg := "Processing metadata retrieval request" }
    let response : MetadataResponse :=
      { ID := docID,
        Title := "Sample Document",
        Author := "Unknown",
        Format := "pdf",
        Pages := 10,
        Created := env.formatRFC3339 (now + (-24) * Hour),
        Modified := env.formatRFC3339 now,
        Size := 204800 }
    let w := w.SetHeader "Content-Type" "application/json"
    let w := w.WriteHeader StatusOK
    (w.Encode (Payload.metadata response), s)

/-- The service handling parse requests one after the other, each with the
header map its writer starts with and the clock reading of its handler;
returns the responses in order and the final state. -/
def serveParse (env : Env) : State → List (Time × List (String × String) × Request) →
    List ResponseWriter × State
  | s, [] => ([], s)
  | s, (now, hdr, r) :: rest =>
    let out := ParseDocumentHandler env now (ResponseWriter.new hdr) r s
    let tail := serveParse env out.2 rest
    (out.1 :: tail.1, tail.2)

/-! ## Server lifecycle (`main.go`) -/

/-- Go `zerolog.Level.String`. -/
def Level.String (l : Level) : String :=
  if l = Level.trace then "trace"
  else if l = Level.debug then "debug"
  else if l = Level.info then "info"
  else if l = Level.warn then "warn"
  else if l = Level.error then "error"
  else if l = Level.fatal then "fatal"
  else if l = Level.panic then "panic"
  else if l = Level.disabled then "disabled"
  else if l = Level.noLevel then ""
  else toString l

/-- The process as seen from outside: logger settings, the events the logger
wrote, and the exit status once the process has ended (`none` while it runs). -/
structure Process where
  globalLevel : Level
  console : Bool
  log : List LogEvent
  exit : Option Int
  deriving DecidableEq, Repr

/-- Go `Logger.should` under the global level of the process. -/
def Process.should (p : Process) (lvl : Level) : Bool :=
  Logger.should p.globalLevel lvl

/-- A decoder defined on a handful of bodies, standing in for `encoding/json`. -/
def sampleDecode (body : String) : Except String ParseRequest :=
  if body = "\x7b\x7d" then Except.ok {}
  else if body = "file_url empty, format docx" then Except.ok { FileURL := "", Format := "docx" }
  else if body = "file_url a.pdf" then Except.ok { FileURL := "s3://docs/a.pdf" }
  else if body = "file_url b.pdf" then Except.ok { FileURL := "s3://docs/b.pdf" }
  else if body = "file_url a.docx, format docx" then
    Except.ok { FileURL := "s3://docs/a.docx", Format := "docx" }
  else if body = "file_url b.docx, format docx" then
    Except.ok { FileURL := "s3://docs/b.docx", Format := "docx" }
  else Except.error "invalid character"

/-- A sample environment: the decoder above and a formatter printing the nanoseconds. -/
def sampleEnv : Env :=
  { decode := sampleDecode, formatRFC3339 := fun t => toString t }

/-- A POST request with the given body. -/
def post (body : String) : Request :=
  { Method := "POST", Header := [], Body := body, URLParam := fun _ => "" }

/-- A GET request whose route parameter `id` is the given string. -/
def getDoc (id : String) : Request :=
  { Method := "GET", Header := [], Body := "",
    URLParam := fun key => if key = "id" then id else "" }

/-- A state with nothing processed and nothing logged, at log level info. -/
def State.init : State := { DocumentsProcessed := 0, globalLevel := Level.info, log := [] }

theorem canonical_contentType : CanonicalMIMEHeaderKey "Content-Type" = "Content-Type" := by
  decide

theorem respondError_new (hdr : List (String × String)) (message : String) (status : Int)
    (hlo : 200 ≤ status) (hhi : status ≤ 999) (h204 : status ≠ 204) (h304 : status ≠ 304) :
    respondError (ResponseWriter.new hdr) message status =
      { header := ("Content-Type", "application/json") ::
          hdr.filter (fun kv => kv.1 ≠ "Content-Type"),
        informational := [],
        status := some status,
        body := [Payload.error { Error := message }],
        panicked := false } := by
  have h1 : ¬ (status < 100 ∨ 999 < status) := by omega
  have h2 : ¬ (100 ≤ status ∧ status ≤ 199 ∧ ¬ status = 101) := by omega
  have h3 : ¬ (100 ≤ status ∧ status ≤ 199) := by omega
  simp [respondError, ResponseWriter.new, ResponseWriter.SetHeader, ResponseWriter.WriteHeader,
    ResponseWriter.Encode, bodyAllowedForStatus, canonical_contentType, h1, h2, h3, h204, h304]

theorem respondError_badRequest (hdr : List (String × String)) (message : String) :
    respondError (ResponseWriter.new hdr) message StatusBadRequest =
      { header := ("Content-Type", "application/json") ::
          hdr.filter (fun kv => kv.1 ≠ "Content-Type"),
        informational := [],
        status := some 400,
        body := [Payload.error { Error := message }],
        panicked := false } :=
  respondError_new hdr message 400 (by decide) (by decide) (by decide) (by decide)

theorem respondError_status (hdr : List (String × String)) (message : String) :
    (respondError (ResponseWriter.new hdr) message StatusBadRequest).status
      = some StatusBadRequest := by
  rw [respondError_badRequest]
  rfl

theorem respondError_body (hdr : List (String × String)) (message : String) :
    (respondError (ResponseWriter.new hdr) message StatusBadRequest).body =
      [Payload.error { Error := message }] := by
  rw [respondError_badRequest]

theorem writer_new_ok (hdr : List (String × String)) (v : Payload) :
    (((ResponseWriter.new hdr).SetHeader "Content-Type" "application/json").WriteHeader
        StatusOK).Encode v =
      { header := ("Content-Type", "application/json") ::
          hdr.filter (fun kv => kv.1 ≠ "Content-Type"),
        informational := [],
        status := some 200,
        body := [v],
        panicked := false } := by
  simp [ResponseWriter.new, ResponseWriter.SetHeader, ResponseWriter.WriteHeader,
    ResponseWriter.Encode, bodyAllowedForStatus, canonical_contentType, StatusOK]

theorem parse_decode_error (env : Env) (now : Time) (w : ResponseWriter) (r : Request)
    (s : State) (err : String) (hdec : env.decode r.Body = Except.error err) :
    ParseDocumentHandler env now w r s =
      (respondError w "Invalid request body" StatusBadRequest,
       s.logEvent { level := Level.error, fields := [("error", err)],
                    msg := "Failed to decode request" }) := by
  simp [ParseDocumentHandler, hdec]

theorem parse_empty_url (env : Env) (now : Time) (w : ResponseWriter) (r : Request)
    (s : State) (req : ParseRequest) (hdec : env.decode r.Body = Except.ok req)
    (hurl : req.FileURL = "") :
    ParseDocumentHandler env now w r s =
      (respondError w "file_url is required" StatusBadRequest, s) := by
  simp [ParseDocumentHandler, hdec, hurl]

theorem parse_success (env : Env) (now : Time) (hdr : List (String × String)) (r : Request)
    (s : State) (req : ParseRequest) (hdec : env.decode r.Body = Except.ok req)
    (hurl : req.FileURL ≠ "") :
    ParseDocumentHandler env now (ResponseWriter.new hdr) r s =
      ({ header := ("Content-Type", "application/json") ::
           hdr.filter (fun kv => kv.1 ≠ "Content-Type"),
         informational := [],
         status := some 200,
         panicked := false,
         body := [Payload.parse
           { Text := "Sample extracted text content from the document...",
             Pages := 10,
             Metadata := [("title", Any.str "Sample Document"),
                          ("author", Any.str "Unknown"),
                          ("created", Any.str (env.formatRFC3339 now)),
                          ("format", Any.str (if req.Format = "" then "pdf" else req.Format))] }] },
       (s.logEvent { level := Level.info,
                     fields := [("file_url", req.FileURL),
                                ("format", if req.Format = "" then "pdf" else req.Format)],
                     msg := "Processing document parse request" }).Inc) := by
  by_cases hf : req.Format = "" <;>
    simp [ParseDocumentHandler, hdec, hurl, hf, writer_new_ok]

theorem logEvent_counter (s : State) (e : LogEvent) :
    (s.logEvent e).DocumentsProcessed = s.DocumentsProcessed := by
  unfold State.logEvent
  split <;> rfl

theorem logEvent_inc_counter (s : State) (e : LogEvent) :
    (s.logEvent e).Inc.DocumentsProcessed = s.DocumentsProcessed + 1 := by
  simp [State.Inc, Counter.Inc, logEvent_counter]

theorem metadata_success (env : Env) (now : Time) (hdr : List (String × String))
    (r : Request) (s : State) (hid : r.URLParam "id" ≠ "") :
    GetMetadataHandler env now (ResponseWriter.new hdr) r s =
      ({ header := ("Content-Type", "application/json") ::
           hdr.filter (fun kv => kv.1 ≠ "Content-Type"),
         informational := [],
         status := some 200,
         panicked := false,
         body := [Payload.metadata
           { ID := r.URLParam "id",
             Title := "Sample Document",
             Author := "Unknown",
             Format := "pdf",
             Pages := 10,
             Created := env.formatRFC3339 (now + (-24) * Hour),
             Modified := env.formatRFC3339 now,
             Size := 204800 }] },
       s.logEvent { level := Level.info, fields := [("document_id", r.URLParam "id")],
                    msg := "Processing metadata retrieval request" }) := by
  simp [GetMetadataHandler, hid, writer_new_ok]

theorem metadata_rejected (env : Env) (now : Time) (w : ResponseWriter)
    (r : Request) (s : State) (hid : r.URLParam "id" = "") :
    GetMetadataHandler env now w r s =
      (respondError w "document id is required" StatusBadRequest, s) := by
  simp [GetMetadataHandler, hid]

theorem health_response (now : Time) (hdr : List (String × String)) (r : Request) :
    HealthHandler now (ResponseWriter.new hdr) r =
      { header := ("Content-Type", "application/json") ::
          hdr.filter (fun kv => kv.1 ≠ "Content-Type"),
        informational := [],
        status := some 200,
        panicked := false,
        body := [Payload.health
          { Status := "healthy", Timestamp := now, Service := "document-processor",
            Version := "1.0.0" }] } := by
  simp [HealthHandler, writer_new_ok]

/-! ## Parse handler: rejected requests -/

/-- C1: a parse request whose body decodes to an empty `file_url` (missing or
empty in the JSON), whatever its format, is answered with status 400 and the one
error body "file_url is required"; no `ParseResponse` is written and the state,
the counter included, is left as it was. -/
theorem parse_missing_file_url (env : Env) (now : Time) (hdr : List (String × String))
    (r : Request) (s : State) (req : ParseRequest)
    (hdec : env.decode r.Body = Except.ok req) (hurl : req.FileURL = "") :
    (ParseDocumentHandler env now (ResponseWriter.new hdr) r s).1.status
        = some StatusBadRequest ∧
    StatusBadRequest = 400 ∧
    (ParseDocumentHandler env now (ResponseWriter.new hdr) r s).1.body
        = [Payload.error { Error := "file_url is required", Code := "", ReqID := "" }] ∧
    (∀ v, Payload.parse v ∉ (ParseDocumentHandler env now (ResponseWriter.new hdr) r s).1.body) ∧
    (ParseDocumentHandler env now (ResponseWriter.new hdr) r s).2 = s := by
  rw [parse_empty_url env now _ r s req hdec hurl]
  refine ⟨respondError_status _ _, rfl, respondError_body _ _, ?_, rfl⟩
  intro v hv
  simp [respondError_body] at hv

/-- Witness of C1 on the body `{}` and on a body with an empty `file_url` and format docx. -/
theorem parse_missing_file_url_witness :
    ((ParseDocumentHandler sampleEnv 5 (ResponseWriter.new []) (post "\x7b\x7d") State.init).1.status
        = some StatusBadRequest ∧
      StatusBadRequest = 400 ∧
      (ParseDocumentHandler sampleEnv 5 (ResponseWriter.new []) (post "\x7b\x7d") State.init).1.body
        = [Payload.error { Error := "file_url is required", Code := "", ReqID := "" }] ∧
      (∀ v, Payload.parse v ∉
        (ParseDocumentHandler sampleEnv 5 (ResponseWriter.new []) (post "\x7b\x7d") State.init).1.body) ∧
      (ParseDocumentHandler sampleEnv 5 (ResponseWriter.new []) (post "\x7b\x7d") State.init).2
        = State.init) ∧
    (ParseDocumentHandler sampleEnv 5 (ResponseWriter.new [])
        (post "file_url empty, format docx") State.init).1.status = some 400 :=
  ⟨parse_missing_file_url sampleEnv 5 [] (post "\x7b\x7d") State.init {} rfl rfl,
   (parse_missing_file_url sampleEnv 5 [] (post "file_url empty, format docx") State.init
      { FileURL := "", Format := "docx" } rfl rfl).1⟩

/-- C2: a parse request whose body fails to decode is answered with status 400
and the one error body "Invalid request body"; the answer is never 200, never
"file_url is required", and the counter is left as it was. -/
theorem parse_malformed_body (env : Env) (now : Time) (hdr : List (String × String))
    (r : Request) (s : State) (err : String)
    (hdec : env.decode r.Body = Except.error err) :
    (ParseDocumentHandler env now (ResponseWriter.new hdr) r s).1.status
        = some StatusBadRequest ∧
    StatusBadRequest = 400 ∧
    (ParseDocumentHandler env now (ResponseWriter.new hdr) r s).1.body
        = [Payload.error { Error := "Invalid request body", Code := "", ReqID := "" }] ∧
    (ParseDocumentHandler env now (ResponseWriter.new hdr) r s).1.status ≠ some StatusOK ∧
    Payload.error { Error := "file_url is required", Code := "", ReqID := "" } ∉
      (ParseDocumentHandler env now (ResponseWriter.new hdr) r s).1.body ∧
    (ParseDocumentHandler env now (ResponseWriter.new hdr) r s).2.DocumentsProcessed
        = s.DocumentsProcessed := by
  rw [parse_decode_error env now _ r s err hdec]
  refine ⟨respondError_status _ _, rfl, respondError_body _ _, ?_, ?_, logEvent_counter _ _⟩
  · rw [respondError_status]
    decide
  · simp [respondError_body]

/-- Witness of C2 on a body the sample decoder rejects. -/
theorem parse_malformed_body_witness :
    (ParseDocumentHandler sampleEnv 5 (ResponseWriter.new []) (post "\x7b") State.init).1.status
        = some StatusBadRequest ∧
    StatusBadRequest = 400 ∧
    (ParseDocumentHandler sampleEnv 5 (ResponseWriter.new []) (post "\x7b") State.init).1.body
        = [Payload.error { Error := "Invalid request body", Code := "", ReqID := "" }] ∧
    (ParseDocumentHandler sampleEnv 5 (ResponseWriter.new []) (post "\x7b") State.init).1.status
        ≠ some StatusOK ∧
    Payload.error { Error := "file_url is required", Code := "", ReqID := "" } ∉
      (ParseDocumentHandler sampleEnv 5 (ResponseWriter.new []) (post "\x7b") State.init).1.body ∧
    (ParseDocumentHandler sampleEnv 5 (ResponseWriter.new []) (post "\x7b") State.init).2.DocumentsProcessed
        = State.init.DocumentsProcessed :=
  parse_malformed_body sampleEnv 5 [] (post "\x7b") State.init "invalid character" rfl

/-! ## Parse handler: accepted requests -/

/-- C3: a parse request with a non-empty `file_url` and an omitted or empty
format does not fail: the status is 200 and the one value written is a
`ParseResponse` whose metadata entry `format` is "pdf". -/
theorem parse_default_format (env : Env) (now : Time) (hdr : List (String × String))
    (r : Request) (s : State) (req : ParseRequest)
    (hdec : env.decode r.Body = Except.ok req) (hurl : req.FileURL ≠ "")
    (hfmt : req.Format = "") :
    (ParseDocumentHandler env now (ResponseWriter.new hdr) r s).1.status = some StatusOK ∧
    StatusOK = 200 ∧
    ∃ resp : ParseResponse,
      (ParseDocumentHandler env now (ResponseWriter.new hdr) r s).1.body = [Payload.parse resp] ∧
      resp.Metadata.lookup "format" = some (Any.str "pdf") := by
  rw [parse_success env now hdr r s req hdec hurl]
  refine ⟨rfl, rfl, _, rfl, ?_⟩
  simp [hfmt, List.lookup]

/-- Witness of C3 on a body that names a file and no format. -/
theorem parse_default_format_witness :
    (ParseDocumentHandler sampleEnv 5 (ResponseWriter.new []) (post "file_url a.pdf")
        State.init).1.status = some StatusOK ∧
    StatusOK = 200 ∧
    ∃ resp : ParseResponse,
      (ParseDocumentHandler sampleEnv 5 (ResponseWriter.new []) (post "file_url a.pdf")
        State.init).1.body = [Payload.parse resp] ∧
      resp.Metadata.lookup "format" = some (Any.str "pdf") :=
  parse_default_format sampleEnv 5 [] (post "file_url a.pdf") State.init
    { FileURL := "s3://docs/a.pdf" } rfl (by decide) rfl

/-- C10: a parse request with a non-empty `file_url` is answered with status 200
and the fixed mock `ParseResponse`: the constant sample text, 10 pages, and a
metadata map with exactly the keys title, author, created (the formatted clock
reading) and format, the format being the one of the request when that is not
empty. A second request with the same format, handled at the same clock reading
and differing only in its non-empty `file_url`, gets an identical response. -/
theorem parse_mock_response (env : Env) (now : Time) (hdr : List (String × String))
    (r r2 : Request) (s s2 : State) (req req2 : ParseRequest)
    (hdec : env.decode r.Body = Except.ok req) (hurl : req.FileURL ≠ "")
    (hdec2 : env.decode r2.Body = Except.ok req2) (hurl2 : req2.FileURL ≠ "")
    (hsame : req2.Format = req.Format) :
    (ParseDocumentHandler env now (ResponseWriter.new hdr) r s).1.status = some 200 ∧
    (∃ fmt : String,
      (ParseDocumentHandler env now (ResponseWriter.new hdr) r s).1.body =
        [Payload.parse
          { Text := "Sample extracted text content from the document...",
            Pages := 10,
            Metadata := [("title", Any.str "Sample Document"),
                         ("author", Any.str "Unknown"),
                         ("created", Any.str (env.formatRFC3339 now)),
                         ("format", Any.str fmt)] }] ∧
      (req.Format ≠ "" → fmt = req.Format)) ∧
    (ParseDocumentHandler env now (ResponseWriter.new hdr) r2 s2).1 =
      (ParseDocumentHandler env now (ResponseWriter.new hdr) r s).1 := by
  rw [parse_success env now hdr r s req hdec hurl,
    parse_success env now hdr r2 s2 req2 hdec2 hurl2, hsame]
  refine ⟨rfl, ⟨_, rfl, ?_⟩, rfl⟩
  intro h
  simp [h]

/-- Witness of C10 on two bodies naming different files, both of format docx. -/
theorem parse_mock_response_witness :
    (ParseDocumentHandler sampleEnv 5 (ResponseWriter.new [])
        (post "file_url a.docx, format docx") State.init).1.status = some 200 ∧
    (∃ fmt : String,
      (ParseDocumentHandler sampleEnv 5 (ResponseWriter.new [])
          (post "file_url a.docx, format docx") State.init).1.body =
        [Payload.parse
          { Text := "Sample extracted text content from the document...",
            Pages := 10,
            Metadata := [("title", Any.str "Sample Document"),
                         ("author", Any.str "Unknown"),
                         ("created", Any.str (sampleEnv.formatRFC3339 5)),
                         ("format", Any.str fmt)] }] ∧
      (("docx" : String) ≠ "" → fmt = "docx")) ∧
    (ParseDocumentHandler sampleEnv 5 (ResponseWriter.new [])
        (post "file_url b.docx, format docx") State.init).1 =
      (ParseDocumentHandler sampleEnv 5 (ResponseWriter.new [])
        (post "file_url a.docx, format docx") State.init).1 :=
  parse_mock_response sampleEnv 5 [] (post "file_url a.docx, format docx")
    (post "file_url b.docx, format docx") State.init State.init
    { FileURL := "s3://docs/a.docx", Format := "docx" }
    { FileURL := "s3://docs/b.docx", Format := "docx" } rfl (by decide) rfl (by decide) rfl

/-! ## Metadata handler -/

/-- C4: a metadata request with a non-empty id is answered with status 200 and
one `MetadataResponse` whose `ID` is the id of the request, unchanged. -/
theorem metadata_echoes_id (env : Env) (now : Time) (hdr : List (String × String))
    (r : Request) (s : State) (hid : r.URLParam "id" ≠ "") :
    (GetMetadataHandler env now (ResponseWriter.new hdr) r s).1.status = some StatusOK ∧
    StatusOK = 200 ∧
    ∃ resp : MetadataResponse,
      (GetMetadataHandler env now (ResponseWriter.new hdr) r s).1.body
        = [Payload.metadata resp] ∧
      resp.ID = r.URLParam "id" := by
  rw [metadata_success env now hdr r s hid]
  exact ⟨rfl, rfl, _, rfl, rfl⟩

/-- Witness of C4 on an id with blanks and mixed case. -/
theorem metadata_echoes_id_witness :
    (GetMetadataHandler sampleEnv 5 (ResponseWriter.new []) (getDoc " Doc-42 ")
        State.init).1.status = some StatusOK ∧
    StatusOK = 200 ∧
    ∃ resp : MetadataResponse,
      (GetMetadataHandler sampleEnv 5 (ResponseWriter.new []) (getDoc " Doc-42 ")
        State.init).1.body = [Payload.metadata resp] ∧
      resp.ID = (getDoc " Doc-42 ").URLParam "id" :=
  metadata_echoes_id sampleEnv 5 [] (getDoc " Doc-42 ") State.init (by decide)

/-- C5: a metadata request whose id is empty is answered with status 400 and the
one error body "document id is required"; no `MetadataResponse` is written. -/
theorem metadata_empty_id (env : Env) (now : Time) (hdr : List (String × String))
    (r : Request) (s : State) (hid : r.URLParam "id" = "") :
    (GetMetadataHandler env now (ResponseWriter.new hdr) r s).1.status
        = some StatusBadRequest ∧
    StatusBadRequest = 400 ∧
    (GetMetadataHandler env now (ResponseWriter.new hdr) r s).1.body
        = [Payload.error { Error := "document id is required", Code := "", ReqID := "" }] ∧
    (∀ v, Payload.metadata v ∉ (GetMetadataHandler env now (ResponseWriter.new hdr) r s).1.body) := by
  rw [metadata_rejected env now _ r s hid]
  refine ⟨respondError_status _ _, rfl, respondError_body _ _, ?_⟩
  intro v hv
  simp [respondError_body] at hv

/-- Witness of C5 on a request whose id segment is empty. -/
theorem metadata_empty_id_witness :
    (GetMetadataHandler sampleEnv 5 (ResponseWriter.new []) (getDoc "") State.init).1.status
        = some StatusBadRequest ∧
    StatusBadRequest = 400 ∧
    (GetMetadataHandler sampleEnv 5 (ResponseWriter.new []) (getDoc "") State.init).1.body
        = [Payload.error { Error := "document id is required", Code := "", ReqID := "" }] ∧
    (∀ v, Payload.metadata v ∉
      (GetMetadataHandler sampleEnv 5 (ResponseWriter.new []) (getDoc "") State.init).1.body) :=
  metadata_empty_id sampleEnv 5 [] (getDoc "") State.init rfl

/-! ## Health handler -/

/-- C6: whatever the request (method, headers, body) and whatever the clock
shows, the health handler answers with status 200 and one `HealthResponse` with
status "healthy", service "document-processor", version "1.0.0" and, as
timestamp, the clock value read while handling; a clock that does not run
backwards from the arrival of the request makes the timestamp no older than
that arrival. -/
theorem health_always_healthy (now arrival : Time) (hdr : List (String × String))
    (r : Request) (hclock : arrival ≤ now) :
    (HealthHandler now (ResponseWriter.new hdr) r).status = some StatusOK ∧
    StatusOK = 200 ∧
    ∃ resp : HealthResponse,
      (HealthHandler now (ResponseWriter.new hdr) r).body = [Payload.health resp] ∧
      resp.Status = "healthy" ∧
      resp.Service = "document-processor" ∧
      resp.Version = "1.0.0" ∧
      resp.Timestamp = now ∧
      arrival ≤ resp.Timestamp := by
  rw [health_response now hdr r]
  exact ⟨rfl, rfl, _, rfl, rfl, rfl, rfl, rfl, hclock⟩

/-- Witness of C6 on a DELETE request with a body, arriving at 1000 and reading the clock at 1007. -/
theorem health_always_healthy_witness :
    (HealthHandler 1007 (ResponseWriter.new [("X-Request-Id", "7")])
      { Method := "DELETE", Header := [("Accept", "text/html")], Body := "junk",
        URLParam := fun _ => "" }).status = some StatusOK ∧
    StatusOK = 200 ∧
    ∃ resp : HealthResponse,
      (HealthHandler 1007 (ResponseWriter.new [("X-Request-Id", "7")])
        { Method := "DELETE", Header := [("Accept", "text/html")], Body := "junk",
          URLParam := fun _ => "" }).body = [Payload.health resp] ∧
      resp.Status = "healthy" ∧
      resp.Service = "document-processor" ∧
      resp.Version = "1.0.0" ∧
      resp.Timestamp = 1007 ∧
      (1000 : Time) ≤ resp.Timestamp :=
  health_always_healthy 1007 1000 [("X-Request-Id", "7")]
    { Method := "DELETE", Header := [("Accept", "text/html")], Body := "junk",
      URLParam := fun _ => "" } (by decide)

/-! ## Error envelope -/

/-- C8 as stated fails for status codes the writer of the server does not take
as given: with code 0 `WriteHeader` panics, so no status and no body are
written; with code 103 an informational response goes out and the status of
the response is 200; with code 204 the status is written and the body is not. -/
theorem respondError_status_not_honoured :
    (respondError (ResponseWriter.new []) "busy" 0).panicked = true ∧
    (respondError (ResponseWriter.new []) "busy" 0).status = none ∧
    (respondError (ResponseWriter.new []) "busy" 0).body = [] ∧
    (respondError (ResponseWriter.new []) "busy" 103).informational = [103] ∧
    (respondError (ResponseWriter.new []) "busy" 103).status = some 200 ∧
    (respondError (ResponseWriter.new []) "busy" 204).status = some 204 ∧
    (respondError (ResponseWriter.new []) "busy" 204).body = [] := by
  decide

/-- C8, amended: for every message and every status code from 200 to 999 other
than 204 and 304, `respondError` writes that status, the content type
application/json and one `ErrorResponse` whose JSON object is the single field
`error` holding the message, `code` and `request_id` being empty and omitted;
and whenever the parse handler or the metadata handler answers 400, what it
wrote is the result of `respondError` with status 400. -/
theorem respondError_envelope (message : String) (status : Int)
    (hdr : List (String × String)) (env : Env) (now : Time) (r : Request) (s : State)
    (hlo : 200 ≤ status) (hhi : status ≤ 999) (h204 : status ≠ 204) (h304 : status ≠ 304) :
    (respondError (ResponseWriter.new hdr) message status).status = some status ∧
    (respondError (ResponseWriter.new hdr) message status).panicked = false ∧
    (respondError (ResponseWriter.new hdr) message status).GetHeader "Content-Type"
        = "application/json" ∧
    (∃ e : ErrorResponse,
      (respondError (ResponseWriter.new hdr) message status).body = [Payload.error e] ∧
      e.toJSON = [("error", Any.str message)] ∧ e.Code = "" ∧ e.ReqID = "") ∧
    ((ParseDocumentHandler env now (ResponseWriter.new hdr) r s).1.status = some 400 →
      ∃ msg, (ParseDocumentHandler env now (ResponseWriter.new hdr) r s).1
        = respondError (ResponseWriter.new hdr) msg 400) ∧
    ((GetMetadataHandler env now (ResponseWriter.new hdr) r s).1.status = some 400 →
      ∃ msg, (GetMetadataHandler env now (ResponseWriter.new hdr) r s).1
        = respondError (ResponseWriter.new hdr) msg 400) := by
  rw [respondError_new hdr message status hlo hhi h204 h304]
  refine ⟨rfl, rfl, ?_, ⟨_, rfl, ?_, rfl, rfl⟩, ?_, ?_⟩
  · simp [ResponseWriter.GetHeader, canonical_contentType]
  · simp [ErrorResponse.toJSON]
  · intro h
    cases hdec : env.decode r.Body with
    | error err =>
      exact ⟨_, by rw [parse_decode_error env now _ r s err hdec]; rfl⟩
    | ok req =>
      by_cases hurl : req.FileURL = ""
      · exact ⟨_, by rw [parse_empty_url env now _ r s req hdec hurl]; rfl⟩
      · rw [parse_success env now hdr r s req hdec hurl] at h
        simp at h
  · intro h
    by_cases hid : r.URLParam "id" = ""
    · exact ⟨_, by rw [metadata_rejected env now _ r s hid]; rfl⟩
    · rw [metadata_success env now hdr r s hid] at h
      simp at h

/-- Witness of the amended C8: `respondError` with status 503, and the two
handlers on rejected requests. -/
theorem respondError_envelope_witness :
    (respondError (ResponseWriter.new []) "busy" 503).status = some 503 ∧
    (∃ e : ErrorResponse,
      (respondError (ResponseWriter.new []) "busy" 503).body = [Payload.error e] ∧
      e.toJSON = [("error", Any.str "busy")] ∧ e.Code = "" ∧ e.ReqID = "") ∧
    (∃ msg, (ParseDocumentHandler sampleEnv 5 (ResponseWriter.new []) (post "\x7b") State.init).1
        = respondError (ResponseWriter.new []) msg 400) ∧
    (∃ msg, (GetMetadataHandler sampleEnv 5 (ResponseWriter.new []) (post "\x7b") State.init).1
        = respondError (ResponseWriter.new []) msg 400) :=
  ⟨(respondError_envelope "busy" 503 [] sampleEnv 5 (post "\x7b") State.init
      (by decide) (by decide) (by decide) (by decide)).1,
   (respondError_envelope "busy" 503 [] sampleEnv 5 (post "\x7b") State.init
      (by decide) (by decide) (by decide) (by decide)).2.2.2.1,
   (respondError_envelope "busy" 503 [] sampleEnv 5 (post "\x7b") State.init
      (by decide) (by decide) (by decide) (by decide)).2.2.2.2.1 (by decide),
   (respondError_envelope "busy" 503 [] sampleEnv 5 (post "\x7b") State.init
      (by decide) (by decide) (by decide) (by decide)).2.2.2.2.2 (by decide)⟩

/-! ## Documents-processed counter -/

theorem parse_status_and_counter (env : Env) (now : Time) (hdr : List (String × String))
    (r : Request) (s : State) :
    ((ParseDocumentHandler env now (ResponseWriter.new hdr) r s).1.status = some 200 ∧
      (ParseDocumentHandler env now (ResponseWriter.new hdr) r s).2.DocumentsProcessed
        = s.DocumentsProcessed + 1) ∨
    ((ParseDocumentHandler env now (ResponseWriter.new hdr) r s).1.status = some 400 ∧
      (ParseDocumentHandler env now (ResponseWriter.new hdr) r s).2.DocumentsProcessed
        = s.DocumentsProcessed) := by
  cases hdec : env.decode r.Body with
  | error err =>
    right
    rw [parse_decode_error env now _ r s err hdec]
    exact ⟨respondError_status _ _, logEvent_counter _ _⟩
  | ok req =>
    by_cases hurl : req.FileURL = ""
    · right
      rw [parse_empty_url env now _ r s req hdec hurl]
      exact ⟨respondError_status _ _, rfl⟩
    · left
      rw [parse_success env now hdr r s req hdec hurl]
      exact ⟨rfl, logEvent_inc_counter _ _⟩

theorem serveParse_counter (env : Env) (reqs : List (Time × List (String × String) × Request)) :
    ∀ s : State, (serveParse env s reqs).2.DocumentsProcessed =
      s.DocumentsProcessed +
        ((serveParse env s reqs).1.filter (fun w => w.status = some 200)).length := by
  induction reqs with
  | nil => intro s; simp [serveParse]
  | cons head rest ih =>
    intro s
    obtain ⟨now, hdr, r⟩ := head
    simp only [serveParse]
    rw [ih]
    rcases parse_status_and_counter env now hdr r s with ⟨hst, hc⟩ | ⟨hst, hc⟩
    · rw [hc, List.filter_cons_of_pos (by simp [hst])]
      simp only [List.length_cons]
      rw [Nat.add_assoc, Nat.add_comm 1]
    · rw [hc, List.filter_cons_of_neg (by simp [hst])]

/-- C7: every parse request is answered either with 200, the counter being one
higher afterwards, or with 400, the counter being unchanged; so after any finite
sequence of parse requests the counter has grown by exactly the number of
requests answered with 200. -/
theorem parse_counter_counts_successes (env : Env) :
    (∀ (now : Time) (hdr : List (String × String)) (r : Request) (s : State),
      ((ParseDocumentHandler env now (ResponseWriter.new hdr) r s).1.status = some 200 ∧
        (ParseDocumentHandler env now (ResponseWriter.new hdr) r s).2.DocumentsProcessed
          = s.DocumentsProcessed + 1) ∨
      ((ParseDocumentHandler env now (ResponseWriter.new hdr) r s).1.status = some 400 ∧
        (ParseDocumentHandler env now (ResponseWriter.new hdr) r s).2.DocumentsProcessed
          = s.DocumentsProcessed)) ∧
    (∀ (s : State) (reqs : List (Time × List (String × String) × Request)),
      (serveParse env s reqs).1.length = reqs.length ∧
      (serveParse env s reqs).2.DocumentsProcessed - s.DocumentsProcessed =
        ((serveParse env s reqs).1.filter (fun w => w.status = some 200)).length ∧
      (serveParse env s reqs).2.DocumentsProcessed =
        s.DocumentsProcessed +
          ((serveParse env s reqs).1.filter (fun w => w.status = some 200)).length) := by
  refine ⟨parse_status_and_counter env, ?_⟩
  intro s reqs
  have h := serveParse_counter env reqs s
  refine ⟨?_, by rw [h]; exact Nat.add_sub_cancel_left _ _, h⟩
  clear h
  induction reqs generalizing s with
  | nil => simp [serveParse]
  | cons head rest ih =>
    obtain ⟨now, hdr, r⟩ := head
    simp [serveParse, ih]

/-! ## Shutdown -/

end DocumentProcessor
